import Mathlib

/-!
Verification development for the rat-salsa-wgpu orchestration core.

The definitions below are a shallow embedding of the event-loop code in
src/src/framework.rs and src/src/event_type.rs (with the older iteration
under src/rat-salsa-wgpu/src/framework.rs embedded where a claim cites it).
Machine floats (f64 font sizes, f32 wheel deltas) are modelled as rationals;
the Rust Result type is modelled as Except; panics are modelled as explicit
error outcomes where a claim depends on them.
-/

namespace RatSalsa

/-- Control envelope, from the control module (re-exported by src/src/lib.rs;
the module file itself is absent from src, so the variant list is taken from
the identical enum in src/rat-salsa-wgpu/src/lib.rs plus the Blink variant
that src/src/framework.rs dispatches on). -/
inductive Control (Ev : Type) where
  | Continue
  | Unchanged
  | Changed
  | Event (e : Ev)
  | Close (e : Ev)
  | Quit
  | Blink
deriving DecidableEq

/-- Entry of the Control Queue: a Result of a Control value or an error,
as pushed by callbacks and by the poll thread. -/
abbrev Qentry (Ev Err : Type) := Except Err (Control Ev)

/-- Tracked input state, from WinitEventState in src/src/event_type.rs.
Pixel coordinates (f64 in the source) are modelled as rationals. -/
structure WinitEventState where
  m_shift : Bool := false
  m_alt : Bool := false
  m_ctrl : Bool := false
  m_super : Bool := false
  dead_key_press : Option Char := none
  dead_key_release : Option Char := none
  window_size_px : Nat × Nat := (0, 0)
  window_size : Nat × Nat := (0, 0)
  cell_width_px : Nat := 0
  cell_height_px : Nat := 0
  x : Nat := 0
  y : Nat := 0
  x_px : Rat := 0
  y_px : Rat := 0
  left_pressed : Bool := false
  middle_pressed : Bool := false
  right_pressed : Bool := false
  back_pressed : Bool := false
  forward_pressed : Bool := false
  other_pressed : List Bool := []
deriving DecidableEq

/-- Accessor shift_pressed of CompositeWinitEvent (src/src/event_type.rs,
line 27): reads the m_shift field of the shared WinitEventState. -/
def WinitEventState.shift_pressed (s : WinitEventState) : Bool := s.m_shift

/-- Accessor alt_pressed of CompositeWinitEvent (src/src/event_type.rs,
line 31): the source reads the m_shift field, not m_alt. -/
def WinitEventState.alt_pressed (s : WinitEventState) : Bool := s.m_shift

/-- Accessor ctrl_pressed of CompositeWinitEvent (src/src/event_type.rs,
line 35): the source reads the m_shift field, not m_ctrl. -/
def WinitEventState.ctrl_pressed (s : WinitEventState) : Bool := s.m_shift

/-- Accessor super_pressed of CompositeWinitEvent (src/src/event_type.rs,
line 39): the source reads the m_shift field, not m_super. -/
def WinitEventState.super_pressed (s : WinitEventState) : Bool := s.m_shift

/-- Mouse buttons of winit, as matched in update_state. -/
inductive MouseButton where
  | left
  | right
  | middle
  | back
  | forward
  | other (n : Nat)
deriving DecidableEq

/-- The winit window events that the framework inspects. MouseWheelLine is
a MouseWheel event carrying a LineDelta, MouseWheelPixel one carrying a
PixelDelta; all remaining event kinds are collapsed into Other. -/
inductive WindowEvent where
  | Destroyed
  | CloseRequested
  | RedrawRequested
  | Resized (w h : Nat)
  | ScaleFactorChanged
  | MouseWheelLine (dx dy : Rat)
  | MouseWheelPixel (dx dy : Rat)
  | ModifiersChanged (shift alt ctrl sup : Bool)
  | CursorMoved (px py : Rat)
  | CursorEntered
  | CursorLeft
  | MouseInput (pressed : Bool) (button : MouseButton)
  | Other
deriving DecidableEq

/-- Growth of the other_pressed vector in update_state: push false while the
length is at most n + 1, then set index n. -/
def setOtherPressed (l : List Bool) (n : Nat) (pressed : Bool) : List Bool :=
  (l ++ List.replicate (n + 2 - l.length) false).set n pressed

/-- State tracking of WinitEventState.update_state
(src/src/event_type.rs, lines 163-219). The f64-to-u16 cast of the cell
coordinates is modelled by the rational floor. -/
def updateState (s : WinitEventState) : WindowEvent → WinitEventState
  | WindowEvent.ModifiersChanged sh al ct su =>
      { s with m_shift := sh, m_alt := al, m_ctrl := ct, m_super := su }
  | WindowEvent.CursorMoved px py =>
      if s.cell_width_px = 0 ∨ s.cell_height_px = 0 then s
      else
        { s with
          x_px := px, y_px := py,
          x := (px / (s.cell_width_px : Rat)).floor.toNat,
          y := (py / (s.cell_height_px : Rat)).floor.toNat }
  | WindowEvent.CursorEntered => s
  | WindowEvent.CursorLeft => { s with x_px := 0, y_px := 0, x := 0, y := 0 }
  | WindowEvent.MouseInput pressed b =>
      match b with
      | MouseButton.left => { s with left_pressed := pressed }
      | MouseButton.right => { s with right_pressed := pressed }
      | MouseButton.middle => { s with middle_pressed := pressed }
      | MouseButton.back => { s with back_pressed := pressed }
      | MouseButton.forward => { s with forward_pressed := pressed }
      | MouseButton.other n =>
          { s with other_pressed := setOtherPressed s.other_pressed n pressed }
  | _ => s

/-- Poll-thread ceiling sleep, from the SLEEP constant of
src/src/framework.rs line 1004, in microseconds. -/
def SLEEP : Nat := 250000

/-- Poll-thread backoff increment, from the BACKOFF constant of
src/src/framework.rs line 1005, in microseconds. -/
def BACKOFF : Nat := 10000

/-- Poll-thread fast sleep, from the FAST_SLEEP constant of
src/src/framework.rs line 1006, in microseconds. -/
def FAST_SLEEP : Nat := 100

/-- One wake cycle of the sleep regime of the poll thread
(src/src/framework.rs, lines 1055-1078): on an idle cycle (ready = false)
the thread parks and then backs off by BACKOFF while still below SLEEP; on
a ready cycle the sleep resets to FAST_SLEEP. -/
def sleepUpdate (ready : Bool) (s : Nat) : Nat :=
  if ready then FAST_SLEEP
  else if s < SLEEP then s + BACKOFF else s

/-- Interpretation of approximately-x microseconds used by the spec text:
within a factor of two. -/
def approxMicros (a b : Nat) : Prop := a ≤ 2 * b ∧ b ≤ 2 * a

/-- C9. The claim states a backoff step of approximately 10 microseconds and
a ceiling of approximately 250 microseconds; the source constants are 10000
and 250000 microseconds (10 ms and 250 ms), three orders of magnitude
larger, so the claim is false; the fast sleep of about 100 microseconds is
correct. -/
theorem poll_constants_counterexample :
    FAST_SLEEP = 100 ∧ BACKOFF = 10000 ∧ SLEEP = 250000 ∧
      ¬ approxMicros BACKOFF 10 ∧ ¬ approxMicros SLEEP 250 := by
  refine ⟨rfl, rfl, rfl, ?_, ?_⟩ <;> · intro h; exact absurd h.1 (by decide)

/-- C9 (amended). The poll-thread sleep parameters are a fast sleep of 100
microseconds, a backoff step of 10000 microseconds (10 ms) per idle wake
cycle, and a ceiling constant of 250000 microseconds (250 ms). -/
theorem poll_constants_values :
    SLEEP = 250000 ∧ BACKOFF = 10000 ∧ FAST_SLEEP = 100 ∧
      approxMicros FAST_SLEEP 100 := by
  exact ⟨rfl, rfl, rfl, by constructor <;> decide⟩

/-- C10. Every one of the modifier accessors alt_pressed, ctrl_pressed and
super_pressed returns the tracked m_shift flag (the same value as
shift_pressed), not the m_alt, m_ctrl or m_super fields: a state exists on
which all three accessors disagree with their namesake fields, while
update_state does track each modifier in its own field. -/
theorem modifier_accessors_read_shift (s : WinitEventState)
    (sh al ct su : Bool) :
    (s.alt_pressed = s.m_shift ∧ s.ctrl_pressed = s.m_shift ∧
      s.super_pressed = s.m_shift ∧ s.shift_pressed = s.m_shift) ∧
    ((updateState s (WindowEvent.ModifiersChanged sh al ct su)).m_shift = sh ∧
      (updateState s (WindowEvent.ModifiersChanged sh al ct su)).m_alt = al ∧
      (updateState s (WindowEvent.ModifiersChanged sh al ct su)).m_ctrl = ct ∧
      (updateState s (WindowEvent.ModifiersChanged sh al ct su)).m_super = su) ∧
    (∃ t : WinitEventState, t.ctrl_pressed ≠ t.m_ctrl ∧
      t.alt_pressed ≠ t.m_alt ∧ t.super_pressed ≠ t.m_super) := by
  refine ⟨⟨rfl, rfl, rfl, rfl⟩, ⟨rfl, rfl, rfl, rfl⟩, ⟨{ m_ctrl := true, m_alt := true, m_super := true }, ?_, ?_, ?_⟩⟩ <;> decide

/-- Configuration of the Running state that the drain loop consults
(src/src/framework.rs, struct Running and SalsaAppContext): the user event
and error callbacks, the optional quit-confirmation and rendered poll
sources, the outcome of the render callback, worker-pool liveness, and the
event converter. Callback results are modelled as pure functions; the quit
source is modelled by the event its read() synthesizes (the source asserts
via unreachable that read() always yields Ok(Control::Event(..))), the
rendered source by the entry its read() returns, and the render callback by
its error, if any. resizedEvent is the value of
event_type.convert(Resized(window_size.pixels)) used by resized_event. -/
structure PEConfig (Ev Err : Type) where
  event : Ev → Qentry Ev Err
  error : Err → Qentry Ev Err
  quitEvent : Option Ev
  renderedRead : Option (Qentry Ev Err)
  renderResult : Option Err
  hasTasks : Bool
  tasksAlive : Bool
  convert : WindowEvent → Option Ev
  resizedEvent : Option Ev

/-- Observable actions of process_event and its drain loop: native
event-loop exit, terminal and backend operations, render passes, user
callback dispatches, and the shutdown sequence. -/
inductive PEAct (Ev Err : Type) where
  | exitLoop
  | clearTerm
  | resizeBackend (w h : Nat)
  | reloadFontsBackend
  | updateFontSizeBackend
  | render
  | dispatchEvent (e : Ev)
  | dispatchError (e : Err)
  | blinkBackend
  | shutdownAct
deriving DecidableEq

/-- Decidable equality for the Result embedding, needed to evaluate the
model on concrete inputs. -/
instance {ε α : Type} [DecidableEq ε] [DecidableEq α] : DecidableEq (Except ε α) :=
  fun a b =>
  match a, b with
  | Except.error x, Except.error y =>
      if h : x = y then Decidable.isTrue (by rw [h])
      else Decidable.isFalse (by intro hc; exact h (by cases hc; rfl))
  | Except.error _, Except.ok _ => Decidable.isFalse (by intro hc; cases hc)
  | Except.ok _, Except.error _ => Decidable.isFalse (by intro hc; cases hc)
  | Except.ok x, Except.ok y =>
      if h : x = y then Decidable.isTrue (by rw [h])
      else Decidable.isFalse (by intro hc; exact h (by cases hc; rfl))

/-- Result of the drain loop: the loop drained the queue and returned to
the native event loop (finished), it broke out through shutdown leaving the
remaining entries unprocessed (stopped), or the fuel bound of the model was
reached (fuelOut). -/
inductive DrainRes (Ev Err : Type) where
  | finished (acts : List (PEAct Ev Err))
  | stopped (acts : List (PEAct Ev Err)) (rest : List (Qentry Ev Err))
  | fuelOut (acts : List (PEAct Ev Err)) (wasChanged : Bool)
      (rest : List (Qentry Ev Err))
deriving DecidableEq

/-- Record one more action in front of a drain-loop result. -/
def DrainRes.prepend {Ev Err : Type} (a : PEAct Ev Err) :
    DrainRes Ev Err → DrainRes Ev Err
  | DrainRes.finished acts => DrainRes.finished (a :: acts)
  | DrainRes.stopped acts rest => DrainRes.stopped (a :: acts) rest
  | DrainRes.fuelOut acts wc rest => DrainRes.fuelOut (a :: acts) wc rest

/-- Queue entries pushed by render_tui (src/src/framework.rs, lines
775-812): on success the read() of the rendered poll source, if one is
configured; on a render-callback error that error. -/
def renderPushes {Ev Err : Type} (cfg : PEConfig Ev Err) : List (Qentry Ev Err) :=
  match cfg.renderResult with
  | some e => [Except.error e]
  | none =>
    match cfg.renderedRead with
    | some r => [r]
    | none => []

/-- The drain loop of process_event (src/src/framework.rs, lines 689-772),
parametrized by explicit fuel. Each iteration checks worker liveness, takes
the front queue entry, applies the was_changed collapse of consecutive
Changed entries, and dispatches on the discriminant; handler results are
pushed onto the back of the queue; Quit runs the quit-confirmation
protocol; shutdown breaks the loop with the unprocessed rest. -/
def drainLoop {Ev Err : Type} (cfg : PEConfig Ev Err) :
    Nat → Bool → List (Qentry Ev Err) → DrainRes Ev Err
  | 0, wc, q => DrainRes.fuelOut [] wc q
  | fuel + 1, wc, q =>
    if cfg.hasTasks && !cfg.tasksAlive then
      DrainRes.stopped [PEAct.shutdownAct] q
    else
      match q with
      | [] => DrainRes.finished []
      | ctrl :: rest =>
        match ctrl with
        | Except.error e =>
            (drainLoop cfg fuel false (rest ++ [cfg.error e])).prepend
              (PEAct.dispatchError e)
        | Except.ok Control.Continue => drainLoop cfg fuel false rest
        | Except.ok Control.Unchanged => drainLoop cfg fuel false rest
        | Except.ok Control.Changed =>
            if wc then drainLoop cfg fuel true rest
            else
              (drainLoop cfg fuel true (rest ++ renderPushes cfg)).prepend
                PEAct.render
        | Except.ok (Control.Close a) =>
            drainLoop cfg fuel false
              (rest ++ [Except.ok (Control.Event a), Except.ok Control.Changed])
        | Except.ok (Control.Event a) =>
            (drainLoop cfg fuel false (rest ++ [cfg.event a])).prepend
              (PEAct.dispatchEvent a)
        | Except.ok Control.Quit =>
            match cfg.quitEvent with
            | some qe =>
                match cfg.event qe with
                | Except.ok Control.Quit =>
                    DrainRes.stopped [PEAct.dispatchEvent qe, PEAct.shutdownAct] rest
                | v =>
                    (drainLoop cfg fuel false (rest ++ [v])).prepend
                      (PEAct.dispatchEvent qe)
            | none => DrainRes.stopped [PEAct.shutdownAct] rest
        | Except.ok Control.Blink =>
            (drainLoop cfg fuel false rest).prepend PEAct.blinkBackend

/-- Test for an Ok(Control::Changed) entry, as in the matches! of the
collapse filter. -/
def isChangedE {Ev Err : Type} : Qentry Ev Err → Bool
  | Except.ok Control.Changed => true
  | _ => false

/-- Test for an Ok(Control::Quit) entry. -/
def isQuitE {Ev Err : Type} : Qentry Ev Err → Bool
  | Except.ok Control.Quit => true
  | _ => false

/-- Test for an Ok(Control::Close(..)) entry. -/
def isCloseE {Ev Err : Type} : Qentry Ev Err → Bool
  | Except.ok (Control.Close _) => true
  | _ => false

/-- A configuration used to observe the pure queue discipline of the drain
loop: the event and error callbacks answer Continue (processing a pushed
entry then enqueues no further observable work), no rendered or
quit-confirmation poll source is configured, the render callback succeeds,
and no worker pool is configured. -/
def observeCfg (Ev Err : Type) : PEConfig Ev Err where
  event := fun _ => Except.ok Control.Continue
  error := fun _ => Except.ok Control.Continue
  quitEvent := none
  renderedRead := none
  renderResult := none
  hasTasks := false
  tasksAlive := true
  convert := fun _ => none
  resizedEvent := none

/-- The action each processed (non-skipped) queue entry produces in the
drain loop: an error entry dispatches the user error callback, Changed runs
a render pass, Event dispatches the user event callback, Blink drives the
backend blink, Continue and Unchanged are no-ops. -/
def entryAct {Ev Err : Type} : Qentry Ev Err → List (PEAct Ev Err)
  | Except.error e => [PEAct.dispatchError e]
  | Except.ok Control.Continue => []
  | Except.ok Control.Unchanged => []
  | Except.ok Control.Changed => [PEAct.render]
  | Except.ok (Control.Event a) => [PEAct.dispatchEvent a]
  | Except.ok (Control.Close _) => []
  | Except.ok Control.Quit => []
  | Except.ok Control.Blink => [PEAct.blinkBackend]

mutual

/-- Specification-side collapse of the spec text: the drained sequence
equals the pushed sequence except that every maximal run of consecutive
Changed entries is collapsed into a single Changed; the head of a run is
kept and the remainder of that run is skipped. -/
def collapseChangedRuns {Ev Err : Type} :
    List (Qentry Ev Err) → List (Qentry Ev Err)
  | [] => []
  | e :: rest =>
    if isChangedE e then e :: skipChangedRun rest
    else e :: collapseChangedRuns rest

/-- Inside a run of Changed entries: skip further consecutive Changed
entries, then resume the collapse. -/
def skipChangedRun {Ev Err : Type} :
    List (Qentry Ev Err) → List (Qentry Ev Err)
  | [] => []
  | e :: rest =>
    if isChangedE e then skipChangedRun rest
    else e :: collapseChangedRuns rest

end

/-- Code-side processed sequence: the actions the drain loop performs for a
drained sequence of entries, following the was_changed skip logic of
src/src/framework.rs lines 701-711 (the Boolean argument is the transient
was_changed loop state). -/
def processedActs {Ev Err : Type} : Bool → List (Qentry Ev Err) → List (PEAct Ev Err)
  | _, [] => []
  | wc, e :: rest =>
    match e with
    | Except.error er => PEAct.dispatchError er :: processedActs false rest
    | Except.ok Control.Continue => processedActs false rest
    | Except.ok Control.Unchanged => processedActs false rest
    | Except.ok Control.Changed =>
        if wc then processedActs true rest
        else PEAct.render :: processedActs true rest
    | Except.ok (Control.Event a) => PEAct.dispatchEvent a :: processedActs false rest
    | Except.ok (Control.Close _) => processedActs false rest
    | Except.ok Control.Quit => []
    | Except.ok Control.Blink => PEAct.blinkBackend :: processedActs false rest

/-- The observing configuration has no worker pool to check. -/
lemma observeCfg_liveness {Ev Err : Type} :
    ((observeCfg Ev Err).hasTasks &&
      !(observeCfg Ev Err).tasksAlive) = false := rfl

/-- The observing event callback answers Continue. -/
lemma observeCfg_event {Ev Err : Type} (a : Ev) :
    (observeCfg Ev Err).event a =
      Except.ok Control.Continue := rfl

/-- The observing error callback answers Continue. -/
lemma observeCfg_error {Ev Err : Type} (e : Err) :
    (observeCfg Ev Err).error e =
      Except.ok Control.Continue := rfl

/-- A successful render pushes nothing under the observing configuration. -/
lemma renderPushes_observe {Ev Err : Type} :
    renderPushes (observeCfg Ev Err) = [] := rfl

/-- Draining a queue of Continue entries performs no observable action. -/
lemma drain_observe_continues {Ev Err : Type} (g : List (Qentry Ev Err))
    (wc : Bool) (fuel : Nat)
    (hg : ∀ e ∈ g, e = Except.ok Control.Continue)
    (hf : g.length + 1 ≤ fuel) :
    drainLoop (observeCfg Ev Err) fuel wc g = DrainRes.finished [] := by
  induction g generalizing wc fuel with
  | nil =>
    cases fuel with
    | zero => omega
    | succ n => simp [drainLoop, observeCfg]
  | cons e rest ih =>
    cases fuel with
    | zero => simp at hf
    | succ n =>
      have he : e = Except.ok Control.Continue := hg e (by simp)
      subst he
      simp only [drainLoop, observeCfg]
      exact ih false n (fun x hx => hg x (by simp [hx])) (by simp at hf; omega)

/-- Draining entries without Quit and Close under the observing
configuration: the queue may carry trailing Continue entries pushed back by
the callbacks, and the performed actions are exactly the processed
sequence of the was_changed filter. -/
lemma drain_observe_spec {Ev Err : Type} (q : List (Qentry Ev Err))
    (g : List (Qentry Ev Err)) (wc : Bool) (fuel : Nat)
    (hq : ∀ e ∈ q, isQuitE e = false ∧ isCloseE e = false)
    (hg : ∀ e ∈ g, e = Except.ok Control.Continue)
    (hf : 2 * q.length + g.length + 1 ≤ fuel) :
    drainLoop (observeCfg Ev Err) fuel wc (q ++ g) =
      DrainRes.finished (processedActs wc q) := by
  induction q generalizing g wc fuel with
  | nil =>
    simpa [processedActs] using drain_observe_continues g wc fuel hg (by simpa using hf)
  | cons e q' ih =>
    cases fuel with
    | zero => simp at hf
    | succ n =>
      have hfn : 2 * q'.length + g.length + 2 ≤ n := by
        simp only [List.length_cons] at hf; omega
      have hq' : ∀ x ∈ q', isQuitE x = false ∧ isCloseE x = false :=
        fun x hx => hq x (by simp [hx])
      have hg' : ∀ x ∈ g ++ [Except.ok Control.Continue],
          (x : Qentry Ev Err) = Except.ok Control.Continue := by
        intro x hx
        rcases List.mem_append.mp hx with h | h
        · exact hg x h
        · simpa using h
      match e with
      | Except.error er =>
        simp only [drainLoop, observeCfg_liveness, Bool.false_eq_true, if_false,
          List.cons_append, observeCfg_error, List.append_assoc]
        rw [ih (g ++ [Except.ok Control.Continue]) false n hq' hg' (by simp; omega)]
        simp [processedActs, DrainRes.prepend]
      | Except.ok Control.Continue =>
        simp only [drainLoop, observeCfg_liveness, Bool.false_eq_true, if_false,
          List.cons_append]
        rw [ih g false n hq' hg (by omega)]
        simp [processedActs]
      | Except.ok Control.Unchanged =>
        simp only [drainLoop, observeCfg_liveness, Bool.false_eq_true, if_false,
          List.cons_append]
        rw [ih g false n hq' hg (by omega)]
        simp [processedActs]
      | Except.ok Control.Changed =>
        cases wc with
        | true =>
          simp only [drainLoop, observeCfg_liveness, Bool.false_eq_true, if_false,
            List.cons_append, if_true]
          rw [ih g true n hq' hg (by omega)]
          simp [processedActs]
        | false =>
          simp only [drainLoop, observeCfg_liveness, Bool.false_eq_true, if_false,
            List.cons_append, renderPushes_observe, List.append_nil]
          rw [ih g true n hq' hg (by omega)]
          simp [processedActs, DrainRes.prepend]
      | Except.ok (Control.Event a) =>
        simp only [drainLoop, observeCfg_liveness, Bool.false_eq_true, if_false,
          List.cons_append, observeCfg_event, List.append_assoc]
        rw [ih (g ++ [Except.ok Control.Continue]) false n hq' hg' (by simp; omega)]
        simp [processedActs, DrainRes.prepend]
      | Except.ok (Control.Close a) =>
        exact absurd (hq (Except.ok (Control.Close a)) (List.mem_cons_self _ _)).2
          (by simp [isCloseE])
      | Except.ok Control.Quit =>
        exact absurd (hq (Except.ok Control.Quit) (List.mem_cons_self _ _)).1
          (by simp [isQuitE])
      | Except.ok Control.Blink =>
        simp only [drainLoop, observeCfg_liveness, Bool.false_eq_true, if_false,
          List.cons_append]
        rw [ih g false n hq' hg (by omega)]
        simp [processedActs, DrainRes.prepend]

/-- The was_changed filter of the code equals the run-collapse of the spec:
in the outside-a-run state it yields the actions of the collapsed sequence,
and in the inside-a-run state those of the run-skipping continuation. -/
lemma processedActs_eq_collapse {Ev Err : Type} (q : List (Qentry Ev Err))
    (hq : ∀ e ∈ q, isQuitE e = false) :
    processedActs false q = (collapseChangedRuns q).flatMap entryAct ∧
      processedActs true q = (skipChangedRun q).flatMap entryAct := by
  induction q with
  | nil => simp [processedActs, collapseChangedRuns, skipChangedRun]
  | cons e rest ih =>
    have ih' := ih (fun x hx => hq x (by simp [hx]))
    constructor
    · match e with
      | Except.error er =>
        simp [processedActs, collapseChangedRuns, isChangedE, entryAct, ih'.1]
      | Except.ok Control.Continue =>
        simp [processedActs, collapseChangedRuns, isChangedE, entryAct, ih'.1]
      | Except.ok Control.Unchanged =>
        simp [processedActs, collapseChangedRuns, isChangedE, entryAct, ih'.1]
      | Except.ok Control.Changed =>
        simp [processedActs, collapseChangedRuns, isChangedE, entryAct, ih'.2]
      | Except.ok (Control.Event a) =>
        simp [processedActs, collapseChangedRuns, isChangedE, entryAct, ih'.1]
      | Except.ok (Control.Close a) =>
        simp [processedActs, collapseChangedRuns, isChangedE, entryAct, ih'.1]
      | Except.ok Control.Quit =>
        exact absurd (hq (Except.ok Control.Quit) (List.mem_cons_self _ _))
          (by simp [isQuitE])
      | Except.ok Control.Blink =>
        simp [processedActs, collapseChangedRuns, isChangedE, entryAct, ih'.1]
    · match e with
      | Except.error er =>
        simp [processedActs, skipChangedRun, isChangedE, entryAct, ih'.1]
      | Except.ok Control.Continue =>
        simp [processedActs, skipChangedRun, isChangedE, entryAct, ih'.1]
      | Except.ok Control.Unchanged =>
        simp [processedActs, skipChangedRun, isChangedE, entryAct, ih'.1]
      | Except.ok Control.Changed =>
        simp [processedActs, skipChangedRun, isChangedE, entryAct, ih'.2]
      | Except.ok (Control.Event a) =>
        simp [processedActs, skipChangedRun, isChangedE, entryAct, ih'.1]
      | Except.ok (Control.Close a) =>
        simp [processedActs, skipChangedRun, isChangedE, entryAct, ih'.1]
      | Except.ok Control.Quit =>
        exact absurd (hq (Except.ok Control.Quit) (List.mem_cons_self _ _))
          (by simp [isQuitE])
      | Except.ok Control.Blink =>
        simp [processedActs, skipChangedRun, isChangedE, entryAct, ih'.1]

/-- C1. For every pushed sequence without Quit and Close entries, the drain
loop processes the entries in push order except that every maximal run of
consecutive Changed entries collapses to a single render pass; no other
entry is dropped, and any non-Changed entry (an error included) between two
Changed entries prevents their collapse: the performed actions are exactly
those of the spec-side run-collapsed sequence. -/
theorem drain_collapses_changed_runs {Ev Err : Type}
    (q : List (Qentry Ev Err))
    (hq : ∀ e ∈ q, isQuitE e = false ∧ isCloseE e = false) :
    drainLoop (observeCfg Ev Err) (2 * q.length + 1) false q =
      DrainRes.finished ((collapseChangedRuns q).flatMap entryAct) := by
  have h1 := drain_observe_spec q [] false (2 * q.length + 1) hq (by simp) (by simp)
  rw [List.append_nil] at h1
  rw [h1, (processedActs_eq_collapse q (fun e he => (hq e he).1)).1]

/-- C1 witness: the spec example, draining the pushed sequence Changed,
Changed, Event 5, Changed, Changed, Changed yields exactly a render pass,
the dispatch of event 5 and one more render pass. -/
theorem drain_collapses_changed_runs_witness :
    drainLoop (observeCfg Nat Nat) 13 false
        [Except.ok Control.Changed, Except.ok Control.Changed,
         Except.ok (Control.Event 5), Except.ok Control.Changed,
         Except.ok Control.Changed, Except.ok Control.Changed] =
      DrainRes.finished [PEAct.render, PEAct.dispatchEvent 5, PEAct.render] := by
  have h := drain_collapses_changed_runs
    ([Except.ok Control.Changed, Except.ok Control.Changed,
      Except.ok (Control.Event 5), Except.ok Control.Changed,
      Except.ok Control.Changed, Except.ok Control.Changed] :
      List (Qentry Nat Nat))
    (by intro e he; fin_cases he <;> simp [isQuitE, isCloseE])
  simpa [collapseChangedRuns, skipChangedRun, isChangedE, entryAct] using h

/-- C2. Draining a Quit entry: with a configured quit-confirmation source
exactly one event is synthesized through it and dispatched to the user
event callback; shutdown proceeds only when that dispatch returns
Ok(Control::Quit), any other result is pushed onto the back of the queue
and the drain loop continues; without a configured source shutdown
proceeds immediately. -/
theorem drain_quit_confirmation {Ev Err : Type} (cfg : PEConfig Ev Err)
    (rest : List (Qentry Ev Err)) (wc : Bool) (fuel : Nat) (qe : Ev)
    (hl : cfg.hasTasks = false) :
    (cfg.quitEvent = some qe → cfg.event qe = Except.ok Control.Quit →
      drainLoop cfg (fuel + 1) wc (Except.ok Control.Quit :: rest) =
        DrainRes.stopped [PEAct.dispatchEvent qe, PEAct.shutdownAct] rest) ∧
    (∀ v : Qentry Ev Err, cfg.quitEvent = some qe → cfg.event qe = v →
      v ≠ Except.ok Control.Quit →
      drainLoop cfg (fuel + 1) wc (Except.ok Control.Quit :: rest) =
        (drainLoop cfg fuel false (rest ++ [v])).prepend
          (PEAct.dispatchEvent qe)) ∧
    (cfg.quitEvent = none →
      drainLoop cfg (fuel + 1) wc (Except.ok Control.Quit :: rest) =
        DrainRes.stopped [PEAct.shutdownAct] rest) := by
  refine ⟨?_, ?_, ?_⟩
  · intro hq he
    simp [drainLoop, hl, hq, he]
  · intro v hq he hne
    subst he
    cases hv : cfg.event qe with
    | error e => simp [drainLoop, hl, hq, hv]
    | ok c =>
      cases c with
      | Continue => simp [drainLoop, hl, hq, hv]
      | Unchanged => simp [drainLoop, hl, hq, hv]
      | Changed => simp [drainLoop, hl, hq, hv]
      | Event a => simp [drainLoop, hl, hq, hv]
      | Close a => simp [drainLoop, hl, hq, hv]
      | Quit => exact absurd hv hne
      | Blink => simp [drainLoop, hl, hq, hv]
  · intro hq
    simp [drainLoop, hl, hq]

/-- Configuration with a quit-confirmation source whose re-dispatch answers
Quit, over concrete event and error types. -/
def cfgQuitYes : PEConfig Nat Nat where
  event := fun e => if e = 7 then Except.ok Control.Quit else Except.ok Control.Continue
  error := fun _ => Except.ok Control.Continue
  quitEvent := some 7
  renderedRead := none
  renderResult := none
  hasTasks := false
  tasksAlive := true
  convert := fun _ => none
  resizedEvent := none

/-- Configuration with a quit-confirmation source whose re-dispatch vetoes
the quit by answering Continue. -/
def cfgQuitVeto : PEConfig Nat Nat where
  event := fun _ => Except.ok Control.Continue
  error := fun _ => Except.ok Control.Continue
  quitEvent := some 7
  renderedRead := none
  renderResult := none
  hasTasks := false
  tasksAlive := true
  convert := fun _ => none
  resizedEvent := none

/-- C2 witness: with the confirming source, draining Quit dispatches event
7 once and shuts down; with the vetoing source, draining Quit dispatches
event 7 once, pushes the Continue back, and the loop keeps running and
drains it; with no source, draining Quit shuts down immediately. -/
theorem drain_quit_confirmation_witness :
    drainLoop cfgQuitYes 1 false [Except.ok Control.Quit] =
      DrainRes.stopped [PEAct.dispatchEvent 7, PEAct.shutdownAct] [] ∧
    drainLoop cfgQuitVeto 3 false [Except.ok Control.Quit] =
      DrainRes.finished [PEAct.dispatchEvent 7] ∧
    drainLoop (observeCfg Nat Nat) 1 false
        [Except.ok Control.Quit] =
      DrainRes.stopped [PEAct.shutdownAct] [] := by
  refine ⟨?_, ?_, ?_⟩
  · exact (drain_quit_confirmation cfgQuitYes [] false 0 7 rfl).1 rfl (by decide)
  · have h := (drain_quit_confirmation cfgQuitVeto [] false 2 7 rfl).2.1
      (Except.ok Control.Continue) rfl rfl (by decide)
    rw [h]
    decide
  · exact (drain_quit_confirmation (observeCfg Nat Nat)
      [] false 0 7 rfl).2.2 rfl

/-- The Running-state fields that process_event reads and writes: the
tracked input state, presence of the terminal and window handles (None
after shutdown), the font size and the pending flags of SalsaAppContext,
and the Control Queue. -/
structure RunningState (Ev Err : Type) where
  winState : WinitEventState
  hasTerminal : Bool
  hasWindow : Bool
  fontSize : Rat
  fontChanged : Bool
  fontSizeChanged : Bool
  clearTerminal : Bool
  queue : List (Qentry Ev Err)
deriving DecidableEq

/-- Result of one process_event call: the new state and the performed
actions, or fuel exhaustion of the model. -/
inductive PEResult (Ev Err : Type) where
  | ok (s : RunningState Ev Err) (acts : List (PEAct Ev Err))
  | fuelOut (s : RunningState Ev Err) (acts : List (PEAct Ev Err))
deriving DecidableEq

/-- Entry pushed after a resize-equivalent change (src/src/framework.rs,
resized_event): the converted synthetic Resized event when the converter
produces one, else a plain Changed. -/
def pushResized {Ev Err : Type} (cfg : PEConfig Ev Err) : Qentry Ev Err :=
  match cfg.resizedEvent with
  | some e => Except.ok (Control.Event e)
  | none => Except.ok Control.Changed

/-- One process_event call of src/src/framework.rs (lines 560-772):
Destroyed exits the native event loop at once; during shutdown (terminal or
window handle gone) every further event is skipped before any other work;
otherwise the tracked input state is updated, the special window events are
translated into queue pushes and flag updates, the Ctrl-scroll font-size
gesture is applied, the pending clear and font flags are consumed, the
remaining event is converted and pushed, an injected user entry is pushed,
and finally the drain loop runs. -/
def processEvent {Ev Err : Type} (cfg : PEConfig Ev Err)
    (s0 : RunningState Ev Err) (ev0 : Option WindowEvent)
    (user : Option (Qentry Ev Err)) (fuel : Nat) : PEResult Ev Err :=
  if ev0 = some WindowEvent.Destroyed then PEResult.ok s0 [PEAct.exitLoop]
  else if !s0.hasTerminal || !s0.hasWindow then PEResult.ok s0 []
  else
    let s := match ev0 with
      | some e => { s0 with winState := updateState s0.winState e }
      | none => s0
    let step1 : RunningState Ev Err × Option WindowEvent :=
      if ev0 = some WindowEvent.CloseRequested then
        ({ s with queue := s.queue ++ [Except.ok Control.Quit] }, none)
      else (s, ev0)
    let s := step1.1
    let ev := step1.2
    let step2 : RunningState Ev Err × Option WindowEvent :=
      if ev = some WindowEvent.RedrawRequested then
        ({ s with queue := s.queue ++ [Except.ok Control.Changed] }, none)
      else (s, ev)
    let s := step2.1
    let ev := step2.2
    let step3 : RunningState Ev Err × Option WindowEvent × List (PEAct Ev Err) :=
      match ev with
      | some (WindowEvent.Resized w h) =>
          ({ s with queue := s.queue ++ [pushResized cfg] }, none,
            [PEAct.resizeBackend w h, PEAct.clearTerm])
      | _ => (s, ev, [])
    let s := step3.1
    let ev := step3.2.1
    let acts := step3.2.2
    let step4 : RunningState Ev Err × Option WindowEvent :=
      if ev = some WindowEvent.ScaleFactorChanged then
        ({ s with fontSizeChanged := true }, none)
      else (s, ev)
    let s := step4.1
    let ev := step4.2
    let step5 : RunningState Ev Err × Option WindowEvent :=
      if s.winState.ctrl_pressed then
        match ev with
        | some (WindowEvent.MouseWheelLine _ dy) =>
            let t :=
              if 0 < dy then
                if 7 < s.fontSize then { s with fontSize := s.fontSize - 1 } else s
              else { s with fontSize := s.fontSize + 1 }
            ({ t with fontSizeChanged := true }, none)
        | _ => (s, ev)
      else (s, ev)
    let s := step5.1
    let ev := step5.2
    let step6 : RunningState Ev Err × List (PEAct Ev Err) :=
      if s.clearTerminal then
        ({ s with clearTerminal := false }, [PEAct.clearTerm])
      else (s, [])
    let s := step6.1
    let acts := acts ++ step6.2
    let step7 : RunningState Ev Err × List (PEAct Ev Err) :=
      if s.fontChanged then
        ({ s with
            queue := s.queue ++ [pushResized cfg]
            fontChanged := false
            fontSizeChanged := false },
          [PEAct.reloadFontsBackend, PEAct.clearTerm])
      else (s, [])
    let s := step7.1
    let acts := acts ++ step7.2
    let step8 : RunningState Ev Err × List (PEAct Ev Err) :=
      if s.fontSizeChanged then
        ({ s with
            queue := s.queue ++ [pushResized cfg]
            fontSizeChanged := false },
          [PEAct.updateFontSizeBackend, PEAct.clearTerm])
      else (s, [])
    let s := step8.1
    let acts := acts ++ step8.2
    let s :=
      match ev with
      | some e =>
          match cfg.convert e with
          | some a => { s with queue := s.queue ++ [Except.ok (Control.Event a)] }
          | none => s
      | none => s
    let s :=
      match user with
      | some u => { s with queue := s.queue ++ [u] }
      | none => s
    match drainLoop cfg fuel false s.queue with
    | DrainRes.finished acts2 => PEResult.ok { s with queue := [] } (acts ++ acts2)
    | DrainRes.stopped acts2 rest =>
        PEResult.ok
          { s with
              queue := rest
              hasTerminal := false
              hasWindow := false }
          (acts ++ acts2)
    | DrainRes.fuelOut acts2 _ rest =>
        PEResult.fuelOut { s with queue := rest } (acts ++ acts2)

/-- C8. Once the terminal or window handle has been torn down, delivering
any further native window event or injected Control entry is a no-op: the
call does not reach any panic site, invokes no user callback, performs no
terminal, window or render action, and leaves the state (queue included)
unchanged; only a Destroyed notification still exits the native event
loop. -/
theorem skip_events_after_shutdown {Ev Err : Type} (cfg : PEConfig Ev Err)
    (s : RunningState Ev Err) (ev : Option WindowEvent)
    (user : Option (Qentry Ev Err)) (fuel : Nat)
    (h : s.hasTerminal = false ∨ s.hasWindow = false) :
    processEvent cfg s ev user fuel =
      PEResult.ok s
        (if ev = some WindowEvent.Destroyed then [PEAct.exitLoop] else []) := by
  by_cases hd : ev = some WindowEvent.Destroyed
  · simp [processEvent, hd]
  · have hb : (!s.hasTerminal || !s.hasWindow) = true := by
      rcases h with h | h <;> simp [h]
    simp [processEvent, hd, hb]

/-- A torn-down state with a non-empty queue, as left behind by shutdown. -/
def shutdownState : RunningState Nat Nat where
  winState := {}
  hasTerminal := false
  hasWindow := false
  fontSize := 22
  fontChanged := false
  fontSizeChanged := false
  clearTerminal := false
  queue := [Except.ok Control.Changed]

/-- C8 witness: after teardown a RedrawRequested event, an injected error
entry and a Destroyed notification are all processed without any action
except the loop exit for Destroyed, and the state stays untouched. -/
theorem skip_events_after_shutdown_witness :
    processEvent (observeCfg Nat Nat) shutdownState
        (some WindowEvent.RedrawRequested) (some (Except.error 3)) 5 =
      PEResult.ok shutdownState [] ∧
    processEvent (observeCfg Nat Nat) shutdownState
        (some WindowEvent.Destroyed) none 5 =
      PEResult.ok shutdownState [PEAct.exitLoop] := by
  constructor
  · exact skip_events_after_shutdown (observeCfg Nat Nat) shutdownState
      (some WindowEvent.RedrawRequested) (some (Except.error 3)) 5 (Or.inl rfl)
  · have h := skip_events_after_shutdown (observeCfg Nat Nat)
      shutdownState (some WindowEvent.Destroyed) none 5 (Or.inl rfl)
    simpa using h

/-- A running state whose tracked modifiers show Ctrl held (and Shift
released), with the default font size of 22. -/
def ctrlHeldState : RunningState Nat Nat where
  winState := { m_ctrl := true }
  hasTerminal := true
  hasWindow := true
  fontSize := 22
  fontChanged := false
  fontSizeChanged := false
  clearTerminal := false
  queue := []

/-- A running state whose tracked modifiers show Shift held (and Ctrl
released), with the default font size of 22. -/
def shiftHeldState : RunningState Nat Nat where
  winState := { m_shift := true }
  hasTerminal := true
  hasWindow := true
  fontSize := 22
  fontChanged := false
  fontSizeChanged := false
  clearTerminal := false
  queue := []

/-- C6. With Ctrl tracked as held and Shift released, a mouse-wheel
line-scroll event does not adjust the font size at all (the guard calls
ctrl_pressed, which reads the m_shift flag), while the identical scroll
with Shift tracked as held bumps the font size by one unit, sets and then
consumes the font-size-changed flag, and performs the backend font-size
update, terminal clear and render inside the same process_event call. -/
theorem ctrl_scroll_gesture_divergence :
    processEvent (observeCfg Nat Nat) ctrlHeldState
        (some (WindowEvent.MouseWheelLine 0 (-1))) none 2 =
      PEResult.ok ctrlHeldState [] ∧
    processEvent (observeCfg Nat Nat) shiftHeldState
        (some (WindowEvent.MouseWheelLine 0 (-1))) none 2 =
      PEResult.ok { shiftHeldState with fontSize := 23 }
        [PEAct.updateFontSizeBackend, PEAct.clearTerm, PEAct.render] := by
  constructor
  · rfl
  · have hlt : ¬ ((0 : Rat) < -1) := by norm_num
    have h7 : ((7 : Rat) < 22) := by norm_num
    have hadd : (22 : Rat) + 1 = 23 := by norm_num
    simp [processEvent, observeCfg, shiftHeldState, updateState,
      WinitEventState.ctrl_pressed, pushResized, drainLoop, renderPushes,
      DrainRes.prepend, hlt, h7, hadd]

/-- Steps of the shutdown sequence (src/src/framework.rs, lines 936-975):
dropping the application-context copy and the orchestration-core copy of
the terminal and the window, and cancelling plus unparking the poll
thread. -/
inductive ShutAct where
  | dropContextTerminal
  | dropCoreTerminal
  | dropContextWindow
  | dropCoreWindow
  | pollShutdown
deriving DecidableEq

/-- The shutdown procedure of src/src/framework.rs (lines 936-975), called
from the drain loop where both handle copies are still held. termExtra and
winExtra count the strong references to the terminal and the window that
other parties still hold beside the context copy and the core copy; after
the context copy is dropped, the strong count seen from the core copy is
1 + extra, and the source panics when it exceeds 1. A panic is modelled as
an error carrying the panic message. -/
def shutdownSeq (termExtra winExtra : Nat) : Except String (List ShutAct) :=
  if 1 + termExtra > 1 then
    Except.error "Terminal still referenced during shutdown"
  else if 1 + winExtra > 1 then
    Except.error "Window still referenced during shutdown"
  else
    Except.ok
      [ShutAct.dropContextTerminal, ShutAct.dropCoreTerminal,
        ShutAct.dropContextWindow, ShutAct.dropCoreWindow,
        ShutAct.pollShutdown]

/-- C7. Shutdown drops the terminal handles before the window handles, for
each dropping the application-context copy first and the orchestration-core
copy second, then shuts down the poll thread; it completes exactly when the
strong count before each final drop is exactly one (no extra holder), and
panics otherwise. -/
theorem shutdown_order_and_refcount (termExtra winExtra : Nat) :
    ((shutdownSeq termExtra winExtra).isOk = true ↔
      (termExtra = 0 ∧ winExtra = 0)) ∧
    (termExtra = 0 → winExtra = 0 →
      shutdownSeq termExtra winExtra =
        Except.ok
          [ShutAct.dropContextTerminal, ShutAct.dropCoreTerminal,
            ShutAct.dropContextWindow, ShutAct.dropCoreWindow,
            ShutAct.pollShutdown]) ∧
    (termExtra > 0 →
      shutdownSeq termExtra winExtra =
        Except.error "Terminal still referenced during shutdown") ∧
    (termExtra = 0 → winExtra > 0 →
      shutdownSeq termExtra winExtra =
        Except.error "Window still referenced during shutdown") := by
  refine ⟨?_, ?_, ?_, ?_⟩
  · constructor
    · intro h
      by_cases ht : termExtra = 0
      · by_cases hw : winExtra = 0
        · exact ⟨ht, hw⟩
        · simp [shutdownSeq, ht, Nat.pos_of_ne_zero hw, Except.isOk,
            Except.toBool] at h
      · simp [shutdownSeq, Nat.pos_of_ne_zero ht, Except.isOk,
          Except.toBool] at h
    · rintro ⟨ht, hw⟩
      simp [shutdownSeq, ht, hw, Except.isOk, Except.toBool]
  · intro ht hw
    simp [shutdownSeq, ht, hw]
  · intro ht
    simp [shutdownSeq, ht]
  · intro ht hw
    simp [shutdownSeq, ht, hw]

/-- C7 witness: with no extra holders shutdown completes in the stated
order, and one extra terminal reference panics. -/
theorem shutdown_order_and_refcount_witness :
    shutdownSeq 0 0 =
      Except.ok
        [ShutAct.dropContextTerminal, ShutAct.dropCoreTerminal,
          ShutAct.dropContextWindow, ShutAct.dropCoreWindow,
          ShutAct.pollShutdown] ∧
    shutdownSeq 1 0 =
      Except.error "Terminal still referenced during shutdown" := by
  exact ⟨(shutdown_order_and_refcount 0 0).2.1 rfl rfl,
    (shutdown_order_and_refcount 1 0).2.2.1 (by decide)⟩

/-- Observable steps of the Startup-to-Running transition. -/
inductive InitAct where
  | loadFonts
  | createWindow
  | createTerminal
  | queryWindowSize
  | propagateWindowSize
  | spawnPollThread
  | installContext
  | callInit
  | renderPass
  | setVisible
  | requestRedraw
  | startPollThread
deriving DecidableEq

/-- The ordered steps of initialize_terminal in src/src/framework.rs (lines
399-558): font loading, window construction, terminal construction, window
size query and propagation, gated poll-thread creation, context install,
user init, set_visible(true), request_redraw, poll start. No render pass
occurs anywhere in the sequence. -/
def initializeActions : List InitAct :=
  [InitAct.loadFonts, InitAct.createWindow, InitAct.createTerminal,
    InitAct.queryWindowSize, InitAct.propagateWindowSize,
    InitAct.spawnPollThread, InitAct.installContext, InitAct.callInit,
    InitAct.setVisible, InitAct.requestRedraw, InitAct.startPollThread]

/-- The ordered steps of initialize_terminal in the earlier iteration
src/rat-salsa-wgpu/src/framework.rs (lines 244-392): it performs the first
render pass (terminal.draw) after user init and before set_visible. -/
def initializeActionsOld : List InitAct :=
  [InitAct.loadFonts, InitAct.createWindow, InitAct.createTerminal,
    InitAct.queryWindowSize, InitAct.propagateWindowSize,
    InitAct.installContext, InitAct.callInit, InitAct.renderPass,
    InitAct.setVisible, InitAct.startPollThread]

/-- C4. In the current implementation the Startup-to-Running transition
contains no render pass at all: the window is made visible and a redraw is
merely requested, so the first frame is drawn only later when the
RedrawRequested event is processed; the earlier iteration did draw a frame
strictly before set_visible, as the claim and the run_config documentation
(window is set visible after the first render) state. -/
theorem startup_renders_before_visible_divergence :
    InitAct.renderPass ∉ initializeActions ∧
    InitAct.setVisible ∈ initializeActions ∧
    InitAct.renderPass ∈
      initializeActionsOld.takeWhile (fun a => decide (a ≠ InitAct.setVisible)) := by
  refine ⟨by decide, by decide, by decide⟩

/-- A poll source as seen by one wake cycle of the poll thread: the result
its poll() returns this cycle, the result its read() would return, and its
optional sleep-time suggestion. -/
structure PollSource (Ev Err : Type) where
  poll : Except Err Bool
  read : Except Err (Control Ev)
  sleepTime : Option Nat
deriving DecidableEq

/-- The polling pass of a wake cycle (src/src/framework.rs, lines
1039-1053), run when the poll queue is empty: each source is polled once in
order; a ready source records its index in the poll queue; a poll() error
is forwarded at once as an error entry. Returns the forwarded entries and
the recorded indices; n is the index of the first source. -/
def pollPhase {Ev Err : Type} :
    List (PollSource Ev Err) → Nat → List (Qentry Ev Err) × List Nat
  | [], _ => ([], [])
  | p :: rest, n =>
    let t := pollPhase rest (n + 1)
    match p.poll with
    | Except.ok true => (t.1, n :: t.2)
    | Except.ok false => t
    | Except.error e => (Except.error e :: t.1, t.2)

/-- The drain of the poll queue (src/src/framework.rs, lines 1072-1077):
read() each recorded source and forward the event; the source calls
expect(\"poll fine\") on the read() result, so a read() error panics the
poll thread, which the model returns as an error with the panic message. -/
def readPhase {Ev Err : Type} (srcs : List (PollSource Ev Err)) :
    List Nat → Except String (List (Qentry Ev Err))
  | [] => Except.ok []
  | i :: rest =>
    match srcs.get? i with
    | some p =>
      match p.read with
      | Except.ok c =>
        match readPhase srcs rest with
        | Except.ok tail => Except.ok (Except.ok c :: tail)
        | Except.error m => Except.error m
      | Except.error _ => Except.error "poll fine"
    | none => Except.error "index out of range"

/-- The duration the idle branch parks for: the minimum of the adaptive
sleep and every sleep-time suggestion (src/src/framework.rs, lines
1056-1063). -/
def parkDuration {Ev Err : Type} (srcs : List (PollSource Ev Err))
    (pollSleep : Nat) : Nat :=
  srcs.foldl
    (fun t p =>
      match p.sleepTime with
      | some ts => min ts t
      | none => t)
    pollSleep

/-- One wake cycle of the poll-thread loop body (src/src/framework.rs,
lines 1032-1078), entered with an empty poll queue: poll every source,
then either park and back off (no source ready) or reset the sleep to
FAST_SLEEP and read-and-forward every ready source. An error outcome is a
poll-thread panic. -/
def wakeCycle {Ev Err : Type} (srcs : List (PollSource Ev Err))
    (pollSleep : Nat) : Except String (List (Qentry Ev Err) × Nat) :=
  let ph := pollPhase srcs 0
  if ph.2.isEmpty then Except.ok (ph.1, sleepUpdate false pollSleep)
  else
    match readPhase srcs ph.2 with
    | Except.ok reads => Except.ok (ph.1 ++ reads, FAST_SLEEP)
    | Except.error m => Except.error m

/-- The error entries that the polling pass forwards: one per source whose
poll() fails, in source order. -/
def pollErrs {Ev Err : Type} (srcs : List (PollSource Ev Err)) :
    List (Qentry Ev Err) :=
  srcs.filterMap
    (fun p =>
      match p.poll with
      | Except.error e => some (Except.error e)
      | _ => none)

/-- The forwarded entries of the polling pass are exactly the poll()
errors. -/
lemma pollPhase_fst {Ev Err : Type} (srcs : List (PollSource Ev Err))
    (n : Nat) : (pollPhase srcs n).1 = pollErrs srcs := by
  induction srcs generalizing n with
  | nil => rfl
  | cons p rest ih =>
    match hp : p.poll with
    | Except.ok true =>
      simp only [pollPhase, hp]
      rw [ih (n + 1)]
      simp [pollErrs, List.filterMap_cons, hp]
    | Except.ok false =>
      simp only [pollPhase, hp]
      rw [ih (n + 1)]
      simp [pollErrs, List.filterMap_cons, hp]
    | Except.error e =>
      simp only [pollPhase, hp]
      rw [ih (n + 1)]
      simp [pollErrs, List.filterMap_cons, hp]

/-- A source that polls ready has its index recorded by the polling
pass. -/
lemma pollPhase_mem {Ev Err : Type} (srcs : List (PollSource Ev Err)) :
    ∀ (n k : Nat) (p : PollSource Ev Err), srcs.get? k = some p →
      p.poll = Except.ok true → (n + k) ∈ (pollPhase srcs n).2 := by
  induction srcs with
  | nil => intro n k p h; simp at h
  | cons q rest ih =>
    intro n k p h hp
    cases k with
    | zero =>
      rw [List.get?_cons_zero] at h
      have hqp : q = p := Option.some.inj h
      subst hqp
      simp [pollPhase, hp]
    | succ k' =>
      rw [List.get?_cons_succ] at h
      have hm := ih (n + 1) k' p h hp
      have harith : n + 1 + k' = n + (k' + 1) := by omega
      rw [harith] at hm
      match hq : q.poll with
      | Except.ok true =>
        simp only [pollPhase, hq]
        exact List.mem_cons_of_mem _ hm
      | Except.ok false =>
        simpa only [pollPhase, hq] using hm
      | Except.error e =>
        simpa only [pollPhase, hq] using hm

/-- Every index the polling pass records belongs to a source that polled
ready. -/
lemma pollPhase_mem_inv {Ev Err : Type} (srcs : List (PollSource Ev Err)) :
    ∀ (n i : Nat), i ∈ (pollPhase srcs n).2 →
      ∃ k p, i = n + k ∧ srcs.get? k = some p ∧ p.poll = Except.ok true := by
  induction srcs with
  | nil => intro n i h; simp [pollPhase] at h
  | cons q rest ih =>
    intro n i h
    have step : i = n ∧ q.poll = Except.ok true ∨ i ∈ (pollPhase rest (n + 1)).2 := by
      match hq : q.poll with
      | Except.ok true =>
        simp [pollPhase, hq] at h
        rcases h with h | h
        · exact Or.inl ⟨h, rfl⟩
        · exact Or.inr h
      | Except.ok false => simp [pollPhase, hq] at h; exact Or.inr h
      | Except.error e => simp [pollPhase, hq] at h; exact Or.inr h
    rcases step with ⟨rfl, hq⟩ | h
    · exact ⟨0, q, by omega, rfl, hq⟩
    · obtain ⟨k, p, hk, hg, hp⟩ := ih (n + 1) i h
      exact ⟨k + 1, p, by omega, by simpa using hg, hp⟩

/-- When every listed index points at a source whose read() succeeds, the
read pass succeeds. -/
lemma readPhase_ok {Ev Err : Type} (srcs : List (PollSource Ev Err)) :
    ∀ idxs : List Nat,
      (∀ i ∈ idxs, ∃ p, srcs.get? i = some p ∧ ∃ c, p.read = Except.ok c) →
      ∃ reads, readPhase srcs idxs = Except.ok reads := by
  intro idxs
  induction idxs with
  | nil => intro _; exact ⟨[], rfl⟩
  | cons i rest ih =>
    intro h
    obtain ⟨p, hg, c, hr⟩ := h i (List.mem_cons_self _ _)
    obtain ⟨tail, htail⟩ := ih (fun j hj => h j (List.mem_cons_of_mem _ hj))
    rw [List.get?_eq_getElem?] at hg
    exact ⟨Except.ok c :: tail, by simp [readPhase, hg, hr, htail]⟩

/-- When some listed index points at a source whose read() fails, the read
pass panics. -/
lemma readPhase_panics {Ev Err : Type} (srcs : List (PollSource Ev Err)) :
    ∀ (idxs : List Nat) (i : Nat), i ∈ idxs →
      (∀ p, srcs.get? i = some p → ∃ e, p.read = Except.error e) →
      ∃ m, readPhase srcs idxs = Except.error m := by
  intro idxs
  induction idxs with
  | nil => intro i h; simp at h
  | cons j rest ih =>
    intro i hi hread
    match hg : srcs.get? j with
    | none =>
      rw [List.get?_eq_getElem?] at hg
      exact ⟨"index out of range", by simp [readPhase, hg]⟩
    | some p =>
      have hg' : srcs[j]? = some p := by rw [← List.get?_eq_getElem?]; exact hg
      match hr : p.read with
      | Except.error e => exact ⟨"poll fine", by simp [readPhase, hg', hr]⟩
      | Except.ok c =>
        rcases List.mem_cons.mp hi with rfl | hi'
        · obtain ⟨e, he⟩ := hread p hg
          rw [he] at hr
          cases hr
        · obtain ⟨m, hm⟩ := ih i hi' hread
          exact ⟨m, by simp [readPhase, hg', hr, hm]⟩

/-- C3 (amended). A poll() error of any source is forwarded as an error
entry into the Control Queue pipeline without panicking the poll thread:
whenever every ready source can be read, the wake cycle succeeds and its
forwarded entries start with exactly the poll() errors in source order. A
read() error, by contrast, is not forwarded: a source that polls ready and
then fails its read() makes the wake cycle panic. -/
theorem poll_errors_forwarded {Ev Err : Type}
    (srcs : List (PollSource Ev Err)) (sleep : Nat) :
    ((∀ p ∈ srcs, p.poll = Except.ok true → ∃ c, p.read = Except.ok c) →
      ∃ reads newSleep,
        wakeCycle srcs sleep = Except.ok (pollErrs srcs ++ reads, newSleep)) ∧
    (∀ p ∈ srcs, p.poll = Except.ok true → (∃ e, p.read = Except.error e) →
      ∃ msg, wakeCycle srcs sleep = Except.error msg) := by
  constructor
  · intro hall
    by_cases hempty : (pollPhase srcs 0).2.isEmpty
    · refine ⟨[], sleepUpdate false sleep, ?_⟩
      simp [wakeCycle, hempty, pollPhase_fst]
    · have hreads : ∀ i ∈ (pollPhase srcs 0).2,
          ∃ p, srcs.get? i = some p ∧ ∃ c, p.read = Except.ok c := by
        intro i hi
        obtain ⟨k, p, hk, hg, hp⟩ := pollPhase_mem_inv srcs 0 i hi
        have : i = k := by omega
        subst this
        exact ⟨p, hg, hall p (List.get?_mem hg) hp⟩
      obtain ⟨reads, hr⟩ := readPhase_ok srcs (pollPhase srcs 0).2 hreads
      refine ⟨reads, FAST_SLEEP, ?_⟩
      simp [wakeCycle, hempty, hr, pollPhase_fst]
  · intro p hp hpoll hread
    obtain ⟨k, hk⟩ := List.get?_of_mem hp
    have hmem : (0 + k) ∈ (pollPhase srcs 0).2 := pollPhase_mem srcs 0 k p hk hpoll
    have hmem0 : k ∈ (pollPhase srcs 0).2 := by simpa using hmem
    have hnempty : ¬ (pollPhase srcs 0).2.isEmpty := by
      intro h
      rw [List.isEmpty_iff] at h
      rw [h] at hmem0
      simp at hmem0
    obtain ⟨m, hm⟩ := readPhase_panics srcs (pollPhase srcs 0).2 k hmem0
      (fun p' hp' => by
        rw [hk] at hp'
        cases hp'
        exact hread)
    exact ⟨m, by simp [wakeCycle, hnempty, hm]⟩

/-- A poll source that reports ready and then fails its read(). -/
def badPollSource : PollSource Nat Nat where
  poll := Except.ok true
  read := Except.error 0
  sleepTime := none

/-- C3 counterexample: a source whose poll() reports ready and whose
read() fails makes the wake cycle panic with the expect message of the
source instead of forwarding an error entry. -/
theorem poll_read_error_panics :
    wakeCycle [badPollSource] SLEEP = Except.error "poll fine" := rfl

/-- A poll source whose poll() fails. -/
def errPollSource : PollSource Nat Nat where
  poll := Except.error 7
  read := Except.ok Control.Continue
  sleepTime := none

/-- C3 witness: a source whose poll() fails has its error forwarded as an
error entry, and the cycle completes without panic. -/
theorem poll_errors_forwarded_witness :
    wakeCycle [errPollSource] SLEEP =
      Except.ok (pollErrs [errPollSource] ++ [], sleepUpdate false SLEEP) := by
  obtain ⟨reads, newSleep, hr⟩ := (poll_errors_forwarded [errPollSource] SLEEP).1
    (by
      intro p hp hpoll
      simp only [List.mem_singleton] at hp
      subst hp
      cases hpoll)
  exact rfl

/-- Sleep value after a run of wake cycles, each flag telling whether some
source was ready in that cycle; the thread starts with SLEEP. -/
def sleepAfter (flags : List Bool) : Nat :=
  flags.foldl (fun a r => sleepUpdate r a) SLEEP

/-- Bound preservation for one sleep update. -/
lemma sleepUpdate_lt (r : Bool) (s : Nat) (h : s < SLEEP + BACKOFF) :
    sleepUpdate r s < SLEEP + BACKOFF := by
  cases r with
  | true =>
    show FAST_SLEEP < SLEEP + BACKOFF
    decide
  | false =>
    show (if s < SLEEP then s + BACKOFF else s) < SLEEP + BACKOFF
    by_cases hlt : s < SLEEP
    · rw [if_pos hlt]
      simp only [SLEEP, BACKOFF] at hlt ⊢
      omega
    · rw [if_neg hlt]
      exact h

/-- Bound on every run of wake cycles. -/
lemma sleepAfter_lt (flags : List Bool) :
    sleepAfter flags < SLEEP + BACKOFF := by
  have general : ∀ (fs : List Bool) (a : Nat), a < SLEEP + BACKOFF →
      fs.foldl (fun x r => sleepUpdate r x) a < SLEEP + BACKOFF := by
    intro fs
    induction fs with
    | nil => intro a ha; simpa using ha
    | cons f rest ih =>
      intro a ha
      simpa using ih (sleepUpdate f a) (sleepUpdate_lt f a ha)
  exact general flags SLEEP (by simp [SLEEP, BACKOFF])

/-- C5 (amended). While the poll queue stays empty the adaptive sleep
never decreases, and once it has reached at least SLEEP it stays put; a
wake cycle in which some source is ready resets it to FAST_SLEEP (the wake
cycle that forwards events returns FAST_SLEEP as the new sleep); but the
value is only bounded by SLEEP + BACKOFF, not by the SLEEP ceiling itself:
the backoff is applied whenever the value is still below SLEEP, so it can
overshoot SLEEP by up to one BACKOFF step. -/
theorem adaptive_sleep_behavior {Ev Err : Type} (s : Nat) (flags : List Bool)
    (srcs : List (PollSource Ev Err)) :
    (s ≤ sleepUpdate false s) ∧
    (sleepUpdate true s = FAST_SLEEP) ∧
    (SLEEP ≤ s → sleepUpdate false s = s) ∧
    (s < SLEEP + BACKOFF → ∀ r, sleepUpdate r s < SLEEP + BACKOFF) ∧
    (sleepAfter flags < SLEEP + BACKOFF) ∧
    (∀ sent newSleep, wakeCycle srcs s = Except.ok (sent, newSleep) →
      (pollPhase srcs 0).2 ≠ [] → newSleep = FAST_SLEEP) := by
  refine ⟨?_, ?_, ?_, ?_, sleepAfter_lt flags, ?_⟩
  · show s ≤ (if s < SLEEP then s + BACKOFF else s)
    by_cases hlt : s < SLEEP
    · rw [if_pos hlt]; omega
    · rw [if_neg hlt]
  · rfl
  · intro h
    show (if s < SLEEP then s + BACKOFF else s) = s
    rw [if_neg (Nat.not_lt.mpr h)]
  · intro h r
    exact sleepUpdate_lt r s h
  · intro sent newSleep hw hne
    have hnempty : ¬ (pollPhase srcs 0).2.isEmpty := by
      simpa [List.isEmpty_iff] using hne
    simp only [wakeCycle, hnempty, if_false] at hw
    match hr : readPhase srcs (pollPhase srcs 0).2 with
    | Except.ok reads =>
      rw [hr] at hw
      exact (Prod.mk.injEq _ _ _ _ ▸ Except.ok.inj hw).2.symm ▸ rfl
    | Except.error m =>
      rw [hr] at hw
      cases hw

/-- C5 witness: a ready cycle resets the sleep to the fast value and an
idle cycle backs off by one step while below the ceiling. -/
theorem adaptive_sleep_behavior_witness :
    sleepUpdate true 250000 = FAST_SLEEP ∧
    sleepUpdate false 100 = 100 + BACKOFF ∧
    sleepAfter [true, false] < SLEEP + BACKOFF := by
  have h := adaptive_sleep_behavior 250000
    [true, false] ([] : List (PollSource Nat Nat))
  refine ⟨h.2.1, by decide, ?_⟩
  exact (adaptive_sleep_behavior 0 [true, false] ([] : List (PollSource Nat Nat))).2.2.2.2.1

/-- C5 counterexample: starting from the initial value SLEEP, one ready
cycle followed by twenty-five idle cycles drives the adaptive sleep to
SLEEP + FAST_SLEEP = 250100 microseconds, strictly beyond the configured
SLEEP ceiling of 250000 microseconds. -/
theorem adaptive_sleep_ceiling_counterexample :
    sleepAfter (true :: List.replicate 25 false) = SLEEP + FAST_SLEEP ∧
      SLEEP < SLEEP + FAST_SLEEP := by
  constructor
  · decide
  · decide

end RatSalsa
